import Mathlib

/-!
Verification of the reserve-api booking coordination core.

The definitions below are a shallow embedding of the TypeScript source:
`src/models/Slot.ts`, `src/models/Booking.ts`, `src/models/User.ts`,
`src/services/BookingService.ts`, `src/schema/resolvers.ts` and
`src/utils/redis.ts`.  Times are modelled as integer milliseconds since the
epoch, database tables as lists of rows, and each service operation as a pure
function from the pre-state (plus the outcomes of its external calls: lock
acquisition, transaction commit, post-commit side effects) to a result and the
post-state.  A thrown `BookingError` or infrastructure error is modelled as an
error result together with the rolled-back (unchanged) state.
-/

namespace ReserveApi

/-- `SlotStatus` enum from `src/models/Slot.ts`. -/
inductive SlotStatus
  | available
  | held
  | booked
  | blocked
deriving DecidableEq, Repr

/-- `BookingStatus` enum from `src/models/Booking.ts`. -/
inductive BookingStatus
  | pending
  | confirmed
  | cancelled
  | completed
  | noShow
deriving DecidableEq, Repr

/-- `UserRole` enum from `src/models/User.ts`. -/
inductive UserRole
  | guest
  | member
  | admin
deriving DecidableEq, Repr

/-- A `slots` row (`src/models/Slot.ts`); columns not read by the modelled
operations (`durationMinutes`, `currency`, `heldUntil`, `metadata`,
timestamps) are omitted. -/
structure Slot where
  id : String
  venueId : String
  date : String
  startTime : Int
  endTime : Int
  capacity : Int
  remainingCapacity : Int
  status : SlotStatus
  price : Option Int
deriving DecidableEq, Repr

/-- A `bookings` row (`src/models/Booking.ts`); the `metadata` bag,
`completedAt` and the created/updated timestamps are omitted. -/
structure Booking where
  id : String
  userId : String
  slotId : String
  venueId : String
  confirmationCode : List Char
  status : BookingStatus
  guestCount : Int
  notes : Option String
  bookingDate : String
  cancelledAt : Option Int
  cancellationReason : Option String
  confirmedAt : Option Int
  totalPrice : Option Int
deriving DecidableEq, Repr

/-- A `users` row (`src/models/User.ts`); only the columns the booking flow
reads. -/
structure User where
  id : String
  role : UserRole
  isActive : Bool
deriving DecidableEq, Repr

/-- Environment-derived configuration together with the current wall-clock
instant (`new Date()` at the start of the operation), in milliseconds.
Source defaults: `MAX_CONCURRENT_BOOKINGS_PER_USER = 5`,
`MAX_BOOKING_ADVANCE_DAYS = 90`, `BOOKING_CANCELLATION_WINDOW_HOURS = 24`. -/
structure Env where
  now : Int
  maxConcurrentBookings : Int
  maxAdvanceDays : Int
  cancellationWindowHours : Int
deriving DecidableEq, Repr

def msPerHour : Int := 3600000

def msPerDay : Int := 86400000

/-- `Slot.isAvailable` getter: `status === AVAILABLE && remainingCapacity > 0`. -/
def Slot.isAvailable (s : Slot) : Bool :=
  decide (s.status = SlotStatus.available) && decide (0 < s.remainingCapacity)

/-- `Slot.isPast` getter: `new Date(this.endTime) < new Date()`. -/
def Slot.isPast (s : Slot) (now : Int) : Bool :=
  decide (s.endTime < now)

/-- `Slot.canAccommodate`: `this.isAvailable && this.remainingCapacity >= guestCount`. -/
def Slot.canAccommodate (s : Slot) (guestCount : Int) : Bool :=
  s.isAvailable && decide (guestCount ≤ s.remainingCapacity)

/-- `Booking.isCancellable` getter from `src/models/Booking.ts`: terminal
statuses (CANCELLED, COMPLETED) are not cancellable; the source then computes
`cutoff = now + BOOKING_CANCELLATION_WINDOW_HOURS` but returns `true` without
ever comparing the cutoff to anything. -/
def Booking.isCancellable (b : Booking) (env : Env) : Bool :=
  if b.status = BookingStatus.cancelled ∨ b.status = BookingStatus.completed then
    false
  else
    let _cutoff : Int := env.now + env.cancellationWindowHours * msPerHour
    true

/-- The cancellability check as the spec words it (section 4.4, CancelBooking
step 3): status is not terminal AND `now + CANCELLATION_WINDOW_HOURS <
slot.startTime`.  Kept separate from the source-derived
`Booking.isCancellable` so the two can be compared. -/
def isCancellableSpec (b : Booking) (slotStartTime : Int) (env : Env) : Bool :=
  decide (b.status ≠ BookingStatus.cancelled) &&
  decide (b.status ≠ BookingStatus.completed) &&
  decide (env.now + env.cancellationWindowHours * msPerHour < slotStartTime)

/-- `Booking.generateConfirmationCode` helper: the dash-stripping
`uuidv4().replace(..)` step. -/
def removeDashes (uuid : List Char) : List Char :=
  uuid.filter (fun c => c ≠ '-')

/-- `Booking.generateConfirmationCode` from `src/models/Booking.ts`: strip the
dashes from a fresh UUID, take the first 8 characters, uppercase them and
prepend `RSV-`. -/
def confirmationCodeChars (uuid : List Char) : List Char :=
  ('R' :: 'S' :: 'V' :: '-' :: []) ++ ((removeDashes uuid).take 8).map Char.toUpper

/-- The decimal digits, code points 48 through 57. -/
def decimalDigitChars : List Char :=
  (List.range 10).map (fun n => Char.ofNat (48 + n))

/-- The lowercase hex alphabet: decimal digits then code points 97-102. -/
def lowerHexChars : List Char :=
  decimalDigitChars ++ (List.range 6).map (fun n => Char.ofNat (97 + n))

/-- The uppercase hex alphabet: decimal digits then code points 65-70. -/
def upperHexChars : List Char :=
  decimalDigitChars ++ (List.range 6).map (fun n => Char.ofNat (65 + n))

/-- The relational store visible to `BookingService`: the three tables the
booking flow touches. -/
structure DB where
  users : List User
  bookings : List Booking
  slots : List Slot
deriving DecidableEq, Repr

/-- `userRepo.findOne({ where: { id, isActive: true } })`. -/
def findActiveUser (db : DB) (userId : String) : Option User :=
  db.users.find? (fun u => u.id == userId && u.isActive)

/-- `bookingRepo.count({ where: { userId, status: CONFIRMED } })`. -/
def countConfirmedBookings (db : DB) (userId : String) : Nat :=
  db.bookings.countP
    (fun b => b.userId == userId && decide (b.status = BookingStatus.confirmed))

/-- Slot lookup by primary key (the `createQueryBuilder ... where id` reads). -/
def findSlot (slots : List Slot) (slotId : String) : Option Slot :=
  slots.find? (fun s => s.id == slotId)

/-- `bookingRepo.findOne({ where: { id } })`. -/
def findBooking (bookings : List Booking) (bookingId : String) : Option Booking :=
  bookings.find? (fun b => b.id == bookingId)

/-- `bookingRepo.findOne({ where: { userId, slotId, status: CONFIRMED } })`
reduced to its existence test. -/
def hasConfirmedBookingFor (db : DB) (userId slotId : String) : Bool :=
  db.bookings.any (fun b =>
    b.userId == userId && b.slotId == slotId &&
    decide (b.status = BookingStatus.confirmed))

/-- `manager.save(slot)` on an existing row: replace the row with the same id. -/
def saveSlot (slots : List Slot) (s : Slot) : List Slot :=
  slots.map (fun x => if x.id = s.id then s else x)

/-- `manager.save(booking)` on an existing row: replace the row with the same id. -/
def saveBooking (bookings : List Booking) (b : Booking) : List Booking :=
  bookings.map (fun x => if x.id = b.id then b else x)

/-- The capacity debit in `createBooking` (BookingService.ts lines 174-178):
`remainingCapacity -= guestCount; if (remainingCapacity === 0) status = BOOKED`. -/
def debitSlot (s : Slot) (guestCount : Int) : Slot :=
  let s1 := { s with remainingCapacity := s.remainingCapacity - guestCount }
  if s1.remainingCapacity = 0 then { s1 with status := SlotStatus.booked } else s1

/-- The capacity credit in `cancelBooking` (BookingService.ts lines 262-268):
`remainingCapacity += guestCount; if (status === BOOKED && remainingCapacity > 0)
status = AVAILABLE`. -/
def creditSlot (s : Slot) (guestCount : Int) : Slot :=
  let s1 := { s with remainingCapacity := s.remainingCapacity + guestCount }
  if s1.status = SlotStatus.booked ∧ 0 < s1.remainingCapacity then
    { s1 with status := SlotStatus.available }
  else s1

/-- The stable machine codes carried by `BookingError`. -/
inductive BookingErrorCode
  | SLOT_LOCKED
  | USER_NOT_FOUND
  | MAX_BOOKINGS_REACHED
  | SLOT_NOT_FOUND
  | SLOT_BLOCKED
  | INSUFFICIENT_CAPACITY
  | SLOT_IN_PAST
  | ADVANCE_LIMIT_EXCEEDED
  | DUPLICATE_BOOKING
  | BOOKING_NOT_FOUND
  | UNAUTHORIZED
  | CANCELLATION_NOT_ALLOWED
deriving DecidableEq, Repr

/-- Failures raised by infrastructure calls rather than thrown as
`BookingError`: a serialization conflict at `commitTransaction`, a rejected
`redis.del` in `invalidateSlotCache`, a rejected `queue.add` in
`QueueService.addJob`. -/
inductive InfraError
  | serializationConflict
  | cacheFailure
  | enqueueFailure
deriving DecidableEq, Repr

/-- The outcome a service call surfaces to its caller: the booking on
success, a `BookingError` with its code, or a rethrown infrastructure error. -/
inductive OpResult
  | ok (b : Booking)
  | bookingError (code : BookingErrorCode)
  | rawError (e : InfraError)
deriving DecidableEq, Repr

/-- Outcomes of the three post-commit side effects of `createBooking`:
cache invalidation, job enqueue, and the SNS publish inside
`NotificationService.send` (which catches its own failures). -/
structure SideEffects where
  cacheInvalidateOk : Bool
  enqueueOk : Bool
  snsPublishOk : Bool
deriving DecidableEq, Repr

def fxOk : SideEffects :=
  { cacheInvalidateOk := true, enqueueOk := true, snsPublishOk := true }

/-- `CreateBookingInput` from `BookingService.ts`. -/
structure CreateBookingInput where
  userId : String
  slotId : String
  venueId : String
  guestCount : Int
  notes : Option String
deriving DecidableEq, Repr

/-- `CancelBookingInput` from `BookingService.ts`. -/
structure CancelBookingInput where
  bookingId : String
  userId : String
  reason : Option String
deriving DecidableEq, Repr

/-- The booking entity minted by `createBooking` (BookingService.ts lines
159-169) as completed by the `@BeforeInsert` confirmation-code hook. -/
def mkBooking (input : CreateBookingInput) (slot : Slot) (newBookingId : String)
    (uuid : List Char) (env : Env) : Booking :=
  { id := newBookingId
    userId := input.userId
    slotId := input.slotId
    venueId := input.venueId
    confirmationCode := confirmationCodeChars uuid
    status := BookingStatus.confirmed
    guestCount := input.guestCount
    notes := input.notes
    bookingDate := slot.date
    cancelledAt := none
    cancellationReason := none
    confirmedAt := some env.now
    totalPrice := slot.price.map (fun p => p * input.guestCount) }

/-- `BookingService.createBooking`.  `lockOk` is the outcome of the Redis
`acquireLock` call, `newBookingId` and `uuid` the fresh identifiers consumed
while minting the booking, `commitOutcome` the storage engine's answer at the
single `commitTransaction` call the source performs (the source has no retry
loop), and `fx` the outcomes of the post-commit side effects.  Any error
before the commit reaches the catch block, which rolls the transaction back,
so the returned store is the unchanged input; after a successful commit the
written rows persist even when a later side effect throws, because
`rollbackTransaction` on a committed transaction undoes nothing. -/
def createBooking (env : Env) (db : DB) (input : CreateBookingInput)
    (lockOk : Bool) (newBookingId : String) (uuid : List Char)
    (commitOutcome : Option InfraError) (fx : SideEffects) : OpResult × DB :=
  if !lockOk then
    (OpResult.bookingError BookingErrorCode.SLOT_LOCKED, db)
  else
    match findActiveUser db input.userId with
    | none => (OpResult.bookingError BookingErrorCode.USER_NOT_FOUND, db)
    | some _user =>
      if env.maxConcurrentBookings ≤ (countConfirmedBookings db input.userId : Int) then
        (OpResult.bookingError BookingErrorCode.MAX_BOOKINGS_REACHED, db)
      else
        match findSlot db.slots input.slotId with
        | none => (OpResult.bookingError BookingErrorCode.SLOT_NOT_FOUND, db)
        | some slot =>
          if slot.status = SlotStatus.blocked then
            (OpResult.bookingError BookingErrorCode.SLOT_BLOCKED, db)
          else if !slot.canAccommodate input.guestCount then
            (OpResult.bookingError BookingErrorCode.INSUFFICIENT_CAPACITY, db)
          else if slot.isPast env.now then
            (OpResult.bookingError BookingErrorCode.SLOT_IN_PAST, db)
          else if env.now + env.maxAdvanceDays * msPerDay < slot.startTime then
            (OpResult.bookingError BookingErrorCode.ADVANCE_LIMIT_EXCEEDED, db)
          else if hasConfirmedBookingFor db input.userId input.slotId then
            (OpResult.bookingError BookingErrorCode.DUPLICATE_BOOKING, db)
          else
            let booking := mkBooking input slot newBookingId uuid env
            let slot1 := debitSlot slot input.guestCount
            let db1 : DB := { db with
              bookings := db.bookings ++ [booking]
              slots := saveSlot db.slots slot1 }
            match commitOutcome with
            | some e => (OpResult.rawError e, db)
            | none =>
              if !fx.cacheInvalidateOk then (OpResult.rawError InfraError.cacheFailure, db1)
              else if !fx.enqueueOk then (OpResult.rawError InfraError.enqueueFailure, db1)
              else (OpResult.ok booking, db1)

/-- `BookingService.cancelBooking`.  The slot lookup happens after the booking
row was saved inside the transaction; when the slot row is missing the
capacity credit is skipped and the commit still happens. -/
def cancelBooking (env : Env) (db : DB) (input : CancelBookingInput) :
    OpResult × DB :=
  match findBooking db.bookings input.bookingId with
  | none => (OpResult.bookingError BookingErrorCode.BOOKING_NOT_FOUND, db)
  | some booking =>
    if booking.userId ≠ input.userId then
      (OpResult.bookingError BookingErrorCode.UNAUTHORIZED, db)
    else if !(booking.isCancellable env) then
      (OpResult.bookingError BookingErrorCode.CANCELLATION_NOT_ALLOWED, db)
    else
      let booking1 := { booking with
        status := BookingStatus.cancelled
        cancelledAt := some env.now
        cancellationReason := input.reason }
      let db1 : DB := { db with bookings := saveBooking db.bookings booking1 }
      match findSlot db.slots booking.slotId with
      | none => (OpResult.ok booking1, db1)
      | some slot =>
        let slot1 := creditSlot slot booking.guestCount
        (OpResult.ok booking1, { db1 with slots := saveSlot db.slots slot1 })

/-- The authenticated caller a resolver sees after `requireAuth`. -/
structure Caller where
  userId : String
  role : UserRole
deriving DecidableEq, Repr

/-- The `Mutation.cancelBooking` resolver (`src/schema/resolvers.ts` lines
315-348): after `requireAuth` it forwards the caller's own user id to the
service; the caller's role is never consulted on this path. -/
def resolverCancelBooking (env : Env) (db : DB) (caller : Caller)
    (bookingId : String) (reason : Option String) : OpResult × DB :=
  cancelBooking env db
    { bookingId := bookingId, userId := caller.userId, reason := reason }

/-- `Mutation.blockSlot` restricted to the slot row it rewrites: the status is
set to BLOCKED (the `metadata` bag recording blockReason/blockedBy is not
modelled; no other column changes). -/
def blockSlot (s : Slot) : Slot :=
  { s with status := SlotStatus.blocked }

/-- `Mutation.unblockSlot` restricted to the slot row it rewrites
(`src/schema/resolvers.ts` lines 373-387): the status is set to AVAILABLE with
no condition on the current status or the remaining capacity. -/
def unblockSlot (s : Slot) : Slot :=
  { s with status := SlotStatus.available }

/-- Spec property P4 on a non-BLOCKED slot: status BOOKED exactly when the
remaining capacity is zero. -/
def statusCapacityConsistent (s : Slot) : Prop :=
  s.status = SlotStatus.booked ↔ s.remainingCapacity = 0

/-- The key-value store backing `RedisClient`. -/
structure RedisState where
  store : List (String × String)
deriving DecidableEq, Repr

def redisGet (st : RedisState) (key : String) : Option String :=
  (st.store.find? (fun kv => kv.1 == key)).map (fun kv => kv.2)

def redisDel (st : RedisState) (key : String) : RedisState :=
  { store := st.store.filter (fun kv => kv.1 ≠ key) }

/-- `RedisClient.releaseLock` (`src/utils/redis.ts` lines 94-105): the Lua
script runs as one atomic step against the store, deleting `lock:{key}` only
when its current value equals the lease token, and the call returns whether a
deletion happened (`result === 1`). -/
def releaseLock (st : RedisState) (key lockId : String) : Bool × RedisState :=
  match redisGet st ("lock:" ++ key) with
  | some v => if v = lockId then (true, redisDel st ("lock:" ++ key)) else (false, st)
  | none => (false, st)

/-- Retry semantics modelled from the spec's words (section 4.4 step 9 and the
design note on serialization-conflict retries), for comparison with the
source's `createBooking`: when the commit fails with a serialization conflict
the whole attempt is retried once from the transaction-open step, and only a
repeated conflict is surfaced as SLOT_LOCKED.  `commit1` and `commit2` are the
storage engine's answers at the first and second commit attempt. -/
def createBookingSpecRetry (env : Env) (db : DB) (input : CreateBookingInput)
    (lockOk : Bool) (newBookingId : String) (uuid : List Char)
    (commit1 commit2 : Option InfraError) (fx : SideEffects) : OpResult × DB :=
  match createBooking env db input lockOk newBookingId uuid commit1 fx with
  | (OpResult.rawError InfraError.serializationConflict, _) =>
    match createBooking env db input lockOk newBookingId uuid commit2 fx with
    | (OpResult.rawError InfraError.serializationConflict, _) =>
      (OpResult.bookingError BookingErrorCode.SLOT_LOCKED, db)
    | r => r
  | r => r

/-!
Concrete fixtures used by the counterexamples and witnesses.  `envT` uses the
source defaults; times are milliseconds with `now = 0`, so `slotT` starts
twelve hours from now and ends an hour later.
-/

def envT : Env :=
  { now := 0, maxConcurrentBookings := 5, maxAdvanceDays := 90,
    cancellationWindowHours := 24 }

def alice : User := { id := "alice", role := UserRole.member, isActive := true }

def slotT : Slot :=
  { id := "s1", venueId := "v1", date := "2026-03-01", startTime := 43200000,
    endTime := 46800000, capacity := 4, remainingCapacity := 2,
    status := SlotStatus.available, price := none }

def bookingT : Booking :=
  { id := "b1", userId := "alice", slotId := "s1", venueId := "v1",
    confirmationCode := "RSV-1234ABCD".data, status := BookingStatus.confirmed,
    guestCount := 2, notes := none, bookingDate := "2026-03-01",
    cancelledAt := none, cancellationReason := none, confirmedAt := some 0,
    totalPrice := none }

def dbCancel : DB := { users := [alice], bookings := [bookingT], slots := [slotT] }

def dbCreate : DB := { users := [alice], bookings := [], slots := [slotT] }

def inpCreate : CreateBookingInput :=
  { userId := "alice", slotId := "s1", venueId := "v1", guestCount := 2,
    notes := none }

def uuidT : List Char := "123e4567-e89b-42d3-a456-426614174000".data

def slotHeld : Slot :=
  { slotT with status := SlotStatus.held, remainingCapacity := 5 }

def dbHeld : DB := { users := [alice], bookings := [], slots := [slotHeld] }

def bookingGhost : Booking :=
  { bookingT with id := "b2", slotId := "missing" }

def dbGhost : DB :=
  { users := [alice], bookings := [bookingGhost], slots := [slotT] }

/-- Unfolding of `Slot.canAccommodate` into its three conjuncts. -/
theorem canAccommodate_iff (s : Slot) (g : Int) :
    s.canAccommodate g = true ↔
      s.status = SlotStatus.available ∧ 0 < s.remainingCapacity ∧
        g ≤ s.remainingCapacity := by
  simp [Slot.canAccommodate, Slot.isAvailable, and_assoc]

/-- Deleting a key removes it from the store. -/
theorem redisGet_redisDel_self (st : RedisState) (key : String) :
    redisGet (redisDel st key) key = none := by
  unfold redisGet redisDel
  rw [Option.map_eq_none']
  rw [List.find?_eq_none]
  intro kv hkv
  simp only [List.mem_filter] at hkv
  simp only [beq_iff_eq]
  exact fun h => absurd h (by simpa using hkv.2)

/-- C1 (code bug): the booking's slot starts only 12 hours from now while the
cancellation window is 24 hours, so per the spec the cancel must fail with
CANCELLATION_NOT_ALLOWED and leave booking and slot unchanged; the source's
`Booking.isCancellable` never compares its computed cutoff with the slot's
start time, so the cancel succeeds and the slot is credited. -/
theorem cancellation_window_ignored :
    (cancelBooking envT dbCancel
        { bookingId := "b1", userId := "alice", reason := none }).1 =
      OpResult.ok { bookingT with status := BookingStatus.cancelled,
                                  cancelledAt := some 0 }
    ∧ (cancelBooking envT dbCancel
        { bookingId := "b1", userId := "alice", reason := none }).2.slots =
      [creditSlot slotT 2]
    ∧ Booking.isCancellable bookingT envT = true
    ∧ isCancellableSpec bookingT slotT.startTime envT = false := by
  refine ⟨rfl, rfl, rfl, rfl⟩

/-- C3 (counterexample): an ADMIN caller who does not own booking `b1` is
refused with UNAUTHORIZED and the store is unchanged — the cancel path never
consults the caller's role, contradicting the claim that an admin non-owner
can cancel. -/
theorem admin_cannot_cancel_foreign_booking :
    resolverCancelBooking envT dbCancel
        { userId := "bob", role := UserRole.admin } "b1" none =
      (OpResult.bookingError BookingErrorCode.UNAUTHORIZED, dbCancel) := by
  rfl

/-- C6 (counterexample): a HELD slot with remaining capacity 5 can hold the
requested 2 guests, yet `createBooking` raises INSUFFICIENT_CAPACITY, because
the check is `!slot.canAccommodate(guestCount)`, which also requires
status = AVAILABLE; so the error is not raised exactly when
`remainingCapacity < guestCount`. -/
theorem insufficient_capacity_without_capacity_shortfall :
    (createBooking envT dbHeld inpCreate true "nb1" uuidT none fxOk).1 =
      OpResult.bookingError BookingErrorCode.INSUFFICIENT_CAPACITY
    ∧ ¬ slotHeld.remainingCapacity < inpCreate.guestCount := by
  exact ⟨rfl, by decide⟩

/-- C2 (counterexample): the transaction commits, the booking row is
persisted, and then the cache invalidation fails; the failure propagates
through the catch block, so the caller receives an error even though the
booking is durable — contradicting the claim that post-commit side-effect
failures never fail the operation. -/
theorem cache_failure_fails_committed_create :
    (createBooking envT dbCreate inpCreate true "nb1" uuidT none
        { cacheInvalidateOk := false, enqueueOk := true, snsPublishOk := true }).1 =
      OpResult.rawError InfraError.cacheFailure
    ∧ (createBooking envT dbCreate inpCreate true "nb1" uuidT none
        { cacheInvalidateOk := false, enqueueOk := true, snsPublishOk := true }).2.bookings =
      [mkBooking inpCreate slotT "nb1" uuidT envT] := by
  exact ⟨rfl, rfl⟩

/-- C4 (counterexample): the first commit attempt fails with a serialization
conflict and a second attempt would succeed; the spec-modelled retry semantics
returns the created booking, but the source performs no retry and surfaces the
raw conflict (not SLOT_LOCKED, not a success). -/
theorem commit_conflict_surfaced_without_retry :
    (createBooking envT dbCreate inpCreate true "nb1" uuidT
        (some InfraError.serializationConflict) fxOk).1 =
      OpResult.rawError InfraError.serializationConflict
    ∧ (createBookingSpecRetry envT dbCreate inpCreate true "nb1" uuidT
        (some InfraError.serializationConflict) none fxOk).1 =
      OpResult.ok (mkBooking inpCreate slotT "nb1" uuidT envT) := by
  exact ⟨rfl, rfl⟩

/-- C8: `releaseLock` returns true exactly when the lock key's current value
equals the lease token; in that case the key is deleted (a subsequent read
finds nothing), and in every other case — lease expired (key absent) or
stolen (different value) — it returns false and leaves the store untouched.
The compare-and-delete is a single step of the model, mirroring the
atomicity of the Lua script. -/
theorem release_lock_compare_and_delete (st : RedisState) (key lockId : String) :
    ((releaseLock st key lockId).1 = true ↔
        redisGet st ("lock:" ++ key) = some lockId)
    ∧ (releaseLock st key lockId).2 =
        (if redisGet st ("lock:" ++ key) = some lockId
         then redisDel st ("lock:" ++ key) else st)
    ∧ redisGet (releaseLock st key lockId).2 ("lock:" ++ key) =
        (if redisGet st ("lock:" ++ key) = some lockId
         then none else redisGet st ("lock:" ++ key)) := by
  unfold releaseLock
  cases hv : redisGet st ("lock:" ++ key) with
  | none => simp [hv]
  | some v =>
    by_cases hve : v = lockId
    · subst hve
      simp [hv, redisGet_redisDel_self]
    · simp [hve, hv, Option.some_inj]

/-- C8 witness: on a store holding the lease token at `lock:slot9`, release
with the matching token returns true. -/
theorem release_lock_compare_and_delete_witness :
    (releaseLock { store := [("lock:slot9", "tok1"), ("other", "x")] }
        "slot9" "tok1").1 = true :=
  (release_lock_compare_and_delete
      { store := [("lock:slot9", "tok1"), ("other", "x")] } "slot9" "tok1").1.mpr
    (by decide)

/-- C9: `unblockSlot` rewrites the status to AVAILABLE unconditionally and
touches no other column, so when the remaining capacity is zero — as after a
booking that exhausted the slot — unblocking a blocked slot yields
status AVAILABLE with remainingCapacity 0, violating the status-capacity
consistency `status = BOOKED ↔ remainingCapacity = 0`. -/
theorem unblock_breaks_status_capacity_consistency (s : Slot)
    (h : s.remainingCapacity = 0) :
    (∀ t : Slot, unblockSlot t = { t with status := SlotStatus.available })
    ∧ (unblockSlot (blockSlot s)).status = SlotStatus.available
    ∧ (unblockSlot (blockSlot s)).remainingCapacity = 0
    ∧ ¬ statusCapacityConsistent (unblockSlot (blockSlot s)) := by
  refine ⟨fun t => rfl, rfl, h, fun hc => ?_⟩
  have hb : (unblockSlot (blockSlot s)).status = SlotStatus.booked := hc.mpr h
  simp [unblockSlot, blockSlot] at hb

/-- C9 witness: booking `slotT` to exhaustion leaves it BOOKED with zero
remaining capacity; blocking and then unblocking it produces the
inconsistent AVAILABLE-at-zero-capacity state. -/
theorem unblock_breaks_status_capacity_consistency_witness :
    debitSlot slotT 2 =
      { slotT with remainingCapacity := 0, status := SlotStatus.booked }
    ∧ ¬ statusCapacityConsistent (unblockSlot (blockSlot (debitSlot slotT 2))) :=
  ⟨rfl, (unblock_breaks_status_capacity_consistency (debitSlot slotT 2) rfl).2.2.2⟩

/-- C10: when a cancel passes the authorization and cancellability checks but
the booking's slot row does not exist, the booking is still set to CANCELLED
and saved, the transaction commits and the cancelled booking is returned,
while the slots table is left completely unchanged — the capacity credit is
silently skipped. -/
theorem cancel_missing_slot_skips_credit (env : Env) (db : DB)
    (input : CancelBookingInput) (b : Booking)
    (hfind : findBooking db.bookings input.bookingId = some b)
    (hown : b.userId = input.userId)
    (hcanc : b.isCancellable env = true)
    (hslot : findSlot db.slots b.slotId = none) :
    cancelBooking env db input =
      (OpResult.ok { b with status := BookingStatus.cancelled,
                            cancelledAt := some env.now,
                            cancellationReason := input.reason },
       { db with
           bookings :=
             saveBooking db.bookings
               { b with status := BookingStatus.cancelled,
                        cancelledAt := some env.now,
                        cancellationReason := input.reason } })
    ∧ (cancelBooking env db input).2.slots = db.slots := by
  unfold cancelBooking
  rw [hfind]
  simp [hown, hcanc, hslot]

/-- C10 witness: booking `b2` references slot id `missing`, which has no row;
its cancel still succeeds and leaves the slots table unchanged. -/
theorem cancel_missing_slot_skips_credit_witness :
    (cancelBooking envT dbGhost
        { bookingId := "b2", userId := "alice", reason := none }).2.slots =
      [slotT] :=
  (cancel_missing_slot_skips_credit envT dbGhost
      { bookingId := "b2", userId := "alice", reason := none } bookingGhost
      rfl rfl rfl rfl).2

/-- C3 (amended): for any booking that exists, the cancel path reports
UNAUTHORIZED exactly when the caller's user id differs from the booking's
owner — the caller's role, ADMIN included, is never consulted, so an admin
non-owner is refused like anyone else. -/
theorem cancel_authorization_owner_only (env : Env) (db : DB) (caller : Caller)
    (bookingId : String) (reason : Option String) (b : Booking)
    (hfind : findBooking db.bookings bookingId = some b) :
    (resolverCancelBooking env db caller bookingId reason).1 =
        OpResult.bookingError BookingErrorCode.UNAUTHORIZED
      ↔ caller.userId ≠ b.userId := by
  unfold resolverCancelBooking cancelBooking
  simp only [hfind]
  by_cases h : b.userId = caller.userId
  · rw [if_neg (by simp [h])]
    simp only [h, ne_eq, not_true_eq_false, iff_false]
    intro hr
    split at hr
    · simp at hr
    · split at hr <;> simp at hr
  · rw [if_pos (by simpa using h)]
    simpa using fun hc => h hc.symm

/-- C3 witness: member `carol` does not own booking `b1`, so her cancel is
refused with UNAUTHORIZED. -/
theorem cancel_authorization_owner_only_witness :
    (resolverCancelBooking envT dbCancel
        { userId := "carol", role := UserRole.member } "b1" none).1 =
      OpResult.bookingError BookingErrorCode.UNAUTHORIZED :=
  (cancel_authorization_owner_only envT dbCancel
      { userId := "carol", role := UserRole.member } "b1" none bookingT
      rfl).mpr (by decide)

/-- `createBooking` viewed as a function of the side-effect outcomes: every
path that fails before or at the commit ignores them entirely and leaves the
store unchanged, and on the success path only the cache-invalidation and
enqueue outcomes are consulted, after the store was already written. -/
theorem createBooking_fx_shape (env : Env) (db : DB) (input : CreateBookingInput)
    (lockOk : Bool) (nid : String) (uuid : List Char) (co : Option InfraError) :
    (∃ c0 : BookingErrorCode, ∀ fx : SideEffects,
        createBooking env db input lockOk nid uuid co fx =
          (OpResult.bookingError c0, db))
    ∨ (∃ e0 : InfraError, co = some e0 ∧ ∀ fx : SideEffects,
        createBooking env db input lockOk nid uuid co fx =
          (OpResult.rawError e0, db))
    ∨ (co = none ∧ ∃ bk : Booking, ∃ db1 : DB, ∀ fx : SideEffects,
        createBooking env db input lockOk nid uuid co fx =
          (if fx.cacheInvalidateOk = false then OpResult.rawError InfraError.cacheFailure
           else if fx.enqueueOk = false then OpResult.rawError InfraError.enqueueFailure
           else OpResult.ok bk, db1)) := by
  by_cases hl : lockOk = true
  case neg =>
    simp only [Bool.not_eq_true] at hl
    exact Or.inl ⟨BookingErrorCode.SLOT_LOCKED, fun fx => by
      simp [createBooking, hl]⟩
  case pos =>
  cases hu : findActiveUser db input.userId with
  | none =>
    exact Or.inl ⟨BookingErrorCode.USER_NOT_FOUND, fun fx => by
      simp [createBooking, hl, hu]⟩
  | some u =>
  by_cases hm : env.maxConcurrentBookings ≤ (countConfirmedBookings db input.userId : Int)
  case pos =>
    exact Or.inl ⟨BookingErrorCode.MAX_BOOKINGS_REACHED, fun fx => by
      simp [createBooking, hl, hu, hm]⟩
  case neg =>
  cases hs : findSlot db.slots input.slotId with
  | none =>
    exact Or.inl ⟨BookingErrorCode.SLOT_NOT_FOUND, fun fx => by
      simp [createBooking, hl, hu, hm, hs]⟩
  | some slot =>
  by_cases hb : slot.status = SlotStatus.blocked
  case pos =>
    exact Or.inl ⟨BookingErrorCode.SLOT_BLOCKED, fun fx => by
      simp [createBooking, hl, hu, hm, hs, hb]⟩
  case neg =>
  by_cases hacc : slot.canAccommodate input.guestCount = true
  case neg =>
    simp only [Bool.not_eq_true] at hacc
    exact Or.inl ⟨BookingErrorCode.INSUFFICIENT_CAPACITY, fun fx => by
      simp [createBooking, hl, hu, hm, hs, hb, hacc]⟩
  case pos =>
  by_cases hp : slot.isPast env.now = true
  case pos =>
    exact Or.inl ⟨BookingErrorCode.SLOT_IN_PAST, fun fx => by
      simp [createBooking, hl, hu, hm, hs, hb, hacc, hp]⟩
  case neg =>
  by_cases hadv : env.now + env.maxAdvanceDays * msPerDay < slot.startTime
  case pos =>
    exact Or.inl ⟨BookingErrorCode.ADVANCE_LIMIT_EXCEEDED, fun fx => by
      simp [createBooking, hl, hu, hm, hs, hb, hacc, hp, hadv]⟩
  case neg =>
  by_cases hdup : hasConfirmedBookingFor db input.userId input.slotId = true
  case pos =>
    exact Or.inl ⟨BookingErrorCode.DUPLICATE_BOOKING, fun fx => by
      simp [createBooking, hl, hu, hm, hs, hb, hacc, hp, hadv, hdup]⟩
  case neg =>
  cases co with
  | some e =>
    exact Or.inr (Or.inl ⟨e, rfl, fun fx => by
      simp [createBooking, hl, hu, hm, hs, hb, hacc, hp, hadv, hdup]⟩)
  | none =>
    refine Or.inr (Or.inr ⟨rfl, mkBooking input slot nid uuid env,
      { db with bookings := db.bookings ++ [mkBooking input slot nid uuid env],
                slots := saveSlot db.slots (debitSlot slot input.guestCount) },
      fun fx => ?_⟩)
    simp only [createBooking, hl, hu, hm, hs, hb, hacc, hp, hadv, hdup]
    by_cases hc : fx.cacheInvalidateOk = false <;>
      by_cases he : fx.enqueueOk = false <;>
      simp [hc, he]

/-- C2 (amended): once the commit has succeeded the booking is durable — the
returned store does not depend on the side-effect outcomes — and the SNS
publish outcome never changes anything because the notification service
catches its own failures; but a post-commit cache-invalidation or job-enqueue
failure is rethrown, so the caller receives an error even though the booking
remains persisted. -/
theorem post_commit_side_effect_semantics (env : Env) (db : DB)
    (input : CreateBookingInput) (lockOk : Bool) (nid : String)
    (uuid : List Char) (co : Option InfraError) (c e n n' : Bool) (b : Booking) :
    (createBooking env db input lockOk nid uuid co
        { cacheInvalidateOk := c, enqueueOk := e, snsPublishOk := n }).2 =
      (createBooking env db input lockOk nid uuid co fxOk).2
    ∧ (createBooking env db input lockOk nid uuid co
        { cacheInvalidateOk := c, enqueueOk := e, snsPublishOk := n }).1 =
      (createBooking env db input lockOk nid uuid co
        { cacheInvalidateOk := c, enqueueOk := e, snsPublishOk := n' }).1
    ∧ ((createBooking env db input lockOk nid uuid co fxOk).1 = OpResult.ok b →
        (createBooking env db input lockOk nid uuid co
            { cacheInvalidateOk := false, enqueueOk := e, snsPublishOk := n }).1 =
          OpResult.rawError InfraError.cacheFailure)
    ∧ ((createBooking env db input lockOk nid uuid co fxOk).1 = OpResult.ok b →
        (createBooking env db input lockOk nid uuid co
            { cacheInvalidateOk := true, enqueueOk := false, snsPublishOk := n }).1 =
          OpResult.rawError InfraError.enqueueFailure) := by
  rcases createBooking_fx_shape env db input lockOk nid uuid co with
    ⟨c0, hsh⟩ | ⟨e0, hco, hsh⟩ | ⟨hco, bk, db1, hsh⟩ <;>
  · refine ⟨?_, ?_, ?_, ?_⟩ <;> simp [hsh, fxOk]

/-- C2 witness: at the concrete fixture the all-successful run returns the
booking, so the amended theorem's implications apply; with a failing cache
invalidation the same committed create surfaces a cacheFailure error. -/
theorem post_commit_side_effect_semantics_witness :
    (createBooking envT dbCreate inpCreate true "nb1" uuidT none
        { cacheInvalidateOk := false, enqueueOk := true, snsPublishOk := true }).1 =
      OpResult.rawError InfraError.cacheFailure :=
  (post_commit_side_effect_semantics envT dbCreate inpCreate true "nb1" uuidT
      none false true true true (mkBooking inpCreate slotT "nb1" uuidT envT)).2.2.1
    rfl

/-- C4 (amended): a commit failure is not retried: whatever error the storage
engine reports at commit is rethrown raw to the caller (never remapped to
SLOT_LOCKED by the commit path) unless some earlier check already failed with
a `BookingError`; in both cases the transaction is rolled back and nothing is
persisted. -/
theorem commit_failure_propagates_raw (env : Env) (db : DB)
    (input : CreateBookingInput) (lockOk : Bool) (nid : String)
    (uuid : List Char) (e : InfraError) (fx : SideEffects) :
    (createBooking env db input lockOk nid uuid (some e) fx).2 = db
    ∧ ((createBooking env db input lockOk nid uuid (some e) fx).1 =
          OpResult.rawError e
       ∨ ∃ c : BookingErrorCode,
          (createBooking env db input lockOk nid uuid (some e) fx).1 =
            OpResult.bookingError c) := by
  rcases createBooking_fx_shape env db input lockOk nid uuid (some e) with
    ⟨c0, hsh⟩ | ⟨e0, hco, hsh⟩ | ⟨hco, _, _, _⟩
  · exact ⟨congrArg Prod.snd (hsh fx), Or.inr ⟨c0, congrArg Prod.fst (hsh fx)⟩⟩
  · injection hco with he
    subst he
    exact ⟨congrArg Prod.snd (hsh fx), Or.inl (congrArg Prod.fst (hsh fx))⟩
  · exact absurd hco (by simp)

/-- The debit step never changes the slot id. -/
theorem debitSlot_id (s : Slot) (g : Int) : (debitSlot s g).id = s.id := by
  by_cases h : s.remainingCapacity - g = 0 <;> simp [debitSlot, h]

/-- The cancel credit undoes the create debit on any slot that could
accommodate the booking. -/
theorem creditSlot_debitSlot (s : Slot) (g : Int)
    (h : s.canAccommodate g = true) : creditSlot (debitSlot s g) g = s := by
  obtain ⟨hst, hpos, hle⟩ := (canAccommodate_iff s g).mp h
  obtain ⟨i, v, d, st, et, cap, rem, status, price⟩ := s
  simp only at hst hpos hle
  subst hst
  unfold debitSlot creditSlot
  by_cases h0 : rem - g = 0
  · have hg : g = rem := by omega
    subst hg
    simp [h0, Int.sub_add_cancel, hpos]
  · simp [h0, Int.sub_add_cancel]

/-- C5: from a one-slot store, a successful create of `g` guests debits the
slot by `g` (setting BOOKED exactly when the remaining capacity reaches 0),
and a successful cancel of that same booking credits the `g` back (flipping
BOOKED to AVAILABLE when the capacity turns positive), restoring the slot row
exactly to its pre-booking state. -/
theorem create_then_cancel_restores_slot (env : Env) (u : User) (s : Slot)
    (g : Int) (nid : String) (uuid : List Char) (reason : Option String)
    (hactive : u.isActive = true)
    (hmax : 0 < env.maxConcurrentBookings)
    (hacc : s.canAccommodate g = true)
    (hpast : s.isPast env.now = false)
    (hadv : ¬ env.now + env.maxAdvanceDays * msPerDay < s.startTime) :
    createBooking env { users := [u], bookings := [], slots := [s] }
        { userId := u.id, slotId := s.id, venueId := s.venueId, guestCount := g,
          notes := none }
        true nid uuid none fxOk =
      (OpResult.ok (mkBooking
          { userId := u.id, slotId := s.id, venueId := s.venueId, guestCount := g,
            notes := none } s nid uuid env),
       { users := [u],
         bookings := [mkBooking
           { userId := u.id, slotId := s.id, venueId := s.venueId, guestCount := g,
             notes := none } s nid uuid env],
         slots := [debitSlot s g] })
    ∧ cancelBooking env
        { users := [u],
          bookings := [mkBooking
            { userId := u.id, slotId := s.id, venueId := s.venueId, guestCount := g,
              notes := none } s nid uuid env],
          slots := [debitSlot s g] }
        { bookingId := nid, userId := u.id, reason := reason } =
      (OpResult.ok { mkBooking
          { userId := u.id, slotId := s.id, venueId := s.venueId, guestCount := g,
            notes := none } s nid uuid env with
          status := BookingStatus.cancelled,
          cancelledAt := some env.now,
          cancellationReason := reason },
       { users := [u],
         bookings := [{ mkBooking
           { userId := u.id, slotId := s.id, venueId := s.venueId, guestCount := g,
             notes := none } s nid uuid env with
           status := BookingStatus.cancelled,
           cancelledAt := some env.now,
           cancellationReason := reason }],
         slots := [s] }) := by
  have hst := ((canAccommodate_iff s g).mp hacc).1
  constructor
  · simp [createBooking, findActiveUser, countConfirmedBookings, findSlot,
      hasConfirmedBookingFor, saveSlot, hactive, hst, hacc, hpast, hadv,
      hmax.not_le, debitSlot_id, fxOk]
  · simp [cancelBooking, findBooking, findSlot, saveBooking, saveSlot,
      Booking.isCancellable, mkBooking, debitSlot_id,
      creditSlot_debitSlot s g hacc]

/-- C5 witness: slot `s1` (capacity 4, remaining 2, AVAILABLE) booked by
alice for 2 guests and then cancelled ends with its original row, remaining
capacity 2 restored. -/
theorem create_then_cancel_restores_slot_witness :
    (cancelBooking envT
        (createBooking envT { users := [alice], bookings := [], slots := [slotT] }
            { userId := alice.id, slotId := slotT.id, venueId := slotT.venueId,
              guestCount := 2, notes := none }
            true "nb1" uuidT none fxOk).2
        { bookingId := "nb1", userId := alice.id, reason := none }).2.slots =
      [slotT] := by
  have h := create_then_cancel_restores_slot envT alice slotT 2 "nb1" uuidT none
    rfl (by decide) (by decide) (by decide) (by decide)
  simp only [h.1, h.2]

/-- C6 (amended): once the user, concurrency-cap and slot-existence checks
have passed, the precondition gauntlet fires in source order with the first
failure winning — SLOT_BLOCKED, then INSUFFICIENT_CAPACITY, then SLOT_IN_PAST,
then ADVANCE_LIMIT_EXCEEDED, then DUPLICATE_BOOKING — but INSUFFICIENT_CAPACITY
is raised exactly when the slot fails `canAccommodate`, that is, whenever the
slot is not AVAILABLE with positive remaining capacity at least `guestCount`;
it does not depend only on comparing `remainingCapacity` with `guestCount`. -/
theorem precondition_gauntlet_order (env : Env) (db : DB)
    (input : CreateBookingInput) (nid : String) (uuid : List Char)
    (co : Option InfraError) (fx : SideEffects) (u : User) (s : Slot)
    (huser : findActiveUser db input.userId = some u)
    (hcount : ¬ env.maxConcurrentBookings ≤
      (countConfirmedBookings db input.userId : Int))
    (hslot : findSlot db.slots input.slotId = some s) :
    (s.status = SlotStatus.blocked →
      (createBooking env db input true nid uuid co fx).1 =
        OpResult.bookingError BookingErrorCode.SLOT_BLOCKED)
    ∧ (s.status ≠ SlotStatus.blocked →
       s.canAccommodate input.guestCount = false →
      (createBooking env db input true nid uuid co fx).1 =
        OpResult.bookingError BookingErrorCode.INSUFFICIENT_CAPACITY)
    ∧ (s.status ≠ SlotStatus.blocked →
       s.canAccommodate input.guestCount = true →
       s.isPast env.now = true →
      (createBooking env db input true nid uuid co fx).1 =
        OpResult.bookingError BookingErrorCode.SLOT_IN_PAST)
    ∧ (s.status ≠ SlotStatus.blocked →
       s.canAccommodate input.guestCount = true →
       s.isPast env.now = false →
       env.now + env.maxAdvanceDays * msPerDay < s.startTime →
      (createBooking env db input true nid uuid co fx).1 =
        OpResult.bookingError BookingErrorCode.ADVANCE_LIMIT_EXCEEDED)
    ∧ (s.status ≠ SlotStatus.blocked →
       s.canAccommodate input.guestCount = true →
       s.isPast env.now = false →
       ¬ env.now + env.maxAdvanceDays * msPerDay < s.startTime →
       hasConfirmedBookingFor db input.userId input.slotId = true →
      (createBooking env db input true nid uuid co fx).1 =
        OpResult.bookingError BookingErrorCode.DUPLICATE_BOOKING)
    ∧ ((createBooking env db input true nid uuid co fx).1 =
        OpResult.bookingError BookingErrorCode.INSUFFICIENT_CAPACITY ↔
       s.status ≠ SlotStatus.blocked ∧
         ¬(s.status = SlotStatus.available ∧ 0 < s.remainingCapacity ∧
            input.guestCount ≤ s.remainingCapacity)) := by
  refine ⟨?_, ?_, ?_, ?_, ?_, ?_⟩
  · intro hb
    simp [createBooking, huser, hcount, hslot, hb]
  · intro hb hacc
    simp [createBooking, huser, hcount, hslot, hb, hacc]
  · intro hb hacc hp
    simp [createBooking, huser, hcount, hslot, hb, hacc, hp]
  · intro hb hacc hp hadv
    simp [createBooking, huser, hcount, hslot, hb, hacc, hp, hadv]
  · intro hb hacc hp hadv hdup
    simp [createBooking, huser, hcount, hslot, hb, hacc, hp, hadv, hdup]
  · constructor
    · intro hr
      by_cases hb : s.status = SlotStatus.blocked
      · simp [createBooking, huser, hcount, hslot, hb] at hr
      · cases hacc : s.canAccommodate input.guestCount with
        | false =>
          exact ⟨hb, fun hca => by
            have := (canAccommodate_iff s input.guestCount).mpr
              ⟨hca.1, hca.2.1, hca.2.2⟩
            rw [hacc] at this
            exact Bool.false_ne_true this⟩
        | true =>
          exfalso
          by_cases hp : s.isPast env.now = true
          · simp [createBooking, huser, hcount, hslot, hb, hacc, hp] at hr
          · simp only [Bool.not_eq_true] at hp
            by_cases hadv : env.now + env.maxAdvanceDays * msPerDay < s.startTime
            · simp [createBooking, huser, hcount, hslot, hb, hacc, hp, hadv] at hr
            · by_cases hdup :
                hasConfirmedBookingFor db input.userId input.slotId = true
              · simp [createBooking, huser, hcount, hslot, hb, hacc, hp, hadv,
                  hdup] at hr
              · cases co with
                | some e =>
                  simp [createBooking, huser, hcount, hslot, hb, hacc, hp, hadv,
                    hdup] at hr
                | none =>
                  by_cases hc : fx.cacheInvalidateOk = false
                  · simp [createBooking, huser, hcount, hslot, hb, hacc, hp,
                      hadv, hdup, hc] at hr
                  · by_cases he : fx.enqueueOk = false
                    · simp [createBooking, huser, hcount, hslot, hb, hacc, hp,
                        hadv, hdup, hc, he] at hr
                    · simp [createBooking, huser, hcount, hslot, hb, hacc, hp,
                        hadv, hdup, hc, he] at hr
    · rintro ⟨hb, hnacc⟩
      cases hacc : s.canAccommodate input.guestCount with
      | false => simp [createBooking, huser, hcount, hslot, hb, hacc]
      | true => exact absurd ((canAccommodate_iff s _).mp hacc) hnacc

/-- C6 witness: on the HELD slot fixture the hypotheses hold concretely and
the amended characterization yields INSUFFICIENT_CAPACITY even though the
remaining capacity (5) exceeds the requested guest count (2). -/
theorem precondition_gauntlet_order_witness :
    (createBooking envT dbHeld inpCreate true "nb2" uuidT none fxOk).1 =
      OpResult.bookingError BookingErrorCode.INSUFFICIENT_CAPACITY :=
  (precondition_gauntlet_order envT dbHeld inpCreate "nb2" uuidT none fxOk
      alice slotHeld rfl (by decide) rfl).2.2.2.2.2.mpr (by decide)

/-- Uppercasing maps the lowercase hex alphabet into the uppercase one. -/
theorem toUpper_lowerHex_mem :
    ∀ c ∈ lowerHexChars, Char.toUpper c ∈ upperHexChars := by
  decide

/-- C7: for any UUID string with at least 8 hex digits once the dashes are
stripped (every random UUID has 32), all lowercase hexadecimal, the generated
confirmation code is `RSV-` followed by those first 8 digits uppercased:
total length exactly 12, prefix `RSV-`, and every remaining character an
uppercase hex digit. -/
theorem confirmation_code_format (uuid : List Char)
    (hlen : 8 ≤ (removeDashes uuid).length)
    (hhex : ∀ c ∈ (removeDashes uuid).take 8, c ∈ lowerHexChars) :
    (confirmationCodeChars uuid).length = 12
    ∧ (confirmationCodeChars uuid).take 4 = ('R' :: 'S' :: 'V' :: '-' :: [])
    ∧ ∀ c ∈ (confirmationCodeChars uuid).drop 4, c ∈ upperHexChars := by
  refine ⟨?_, rfl, ?_⟩
  · simp [confirmationCodeChars, List.length_take, Nat.min_eq_left hlen]
  · intro c hc
    simp only [confirmationCodeChars, List.cons_append, List.nil_append,
      List.drop_succ_cons, List.drop_zero, List.mem_map] at hc
    obtain ⟨c1, hc1, rfl⟩ := hc
    exact toUpper_lowerHex_mem c1 (hhex c1 hc1)

/-- C7 witness: a concrete UUID yields confirmation code of length 12 with
the `RSV-` prefix and uppercase hex tail. -/
theorem confirmation_code_format_witness :
    (confirmationCodeChars uuidT).length = 12
    ∧ (confirmationCodeChars uuidT).take 4 = ('R' :: 'S' :: 'V' :: '-' :: []) := by
  have h := confirmation_code_format uuidT (by decide) (by decide)
  exact ⟨h.1, h.2.1⟩

end ReserveApi
